import Mathlib

/-
Shallow embedding of the CRA protocol crypto tracer core
(`tracer_core.py`: class `CRAProtocolCore`), covering:

* the graph data model (Address / Entity nodes, SENT / OWNED_BY edges),
* `load_transaction` — the Cypher MERGE-based ingestion,
* `trace_and_format_graph` — peel-chain path discovery and projection,
* `analyze_mixer_flow` — mixer deposit/withdrawal correlation.

Modelling conventions:
* Timestamps are integer milliseconds since an arbitrary epoch (the source
  uses `datetime` values; sub-minute and sub-second offsets used by the
  boundary claims are exact in milliseconds).
* USD amounts are exact rationals `ℚ` (the source uses floats; no claim in
  scope depends on binary floating-point artifacts).
* Python `round(x, 2)` is modelled as round-half-to-even on the exact value
  (`roundHalfEven` below), matching Python's rounding mode.
* Store and driver behavior is part of the model where a claim depends
  on it: the mixer query is valid Cypher and returns rows (the `Except`
  input of `analyzeMixerFlow` is the store outcome), the peel-chain
  statement is statically invalid and always fails
  (`peelChainQueryOutcome`), and the driver's temporal values make the
  mixer result loop raise (`durationTotalSecondsError`).
-/

/-- An `Address` node. `first_seen` is set only by `ON CREATE`, `last_seen`
only by `ON MATCH` (see the Cypher text of `load_transaction`); both start
absent. `risk_score` and `label` are absent unless set elsewhere. -/
structure AddressNode where
  hash : String
  first_seen : Option Int
  last_seen : Option Int
  risk_score : Option ℚ
  label : Option String
deriving DecidableEq, Repr

/-- A `SENT` relationship: `(src)-[:SENT {tx_hash}]->(dst)` with the
properties set by `ON CREATE` in `load_transaction`. -/
structure SentEdge where
  src : String
  dst : String
  tx_hash : String
  amount_usd : ℚ
  timestamp : Int
  blockchain : String
deriving DecidableEq, Repr

/-- An `Entity` node (created by `attribute_entity`). -/
structure EntityNode where
  name : String
  type : String
deriving DecidableEq, Repr

/-- The graph store state: Address and Entity nodes, SENT edges, and
OWNED_BY edges (address hash, entity name). -/
structure Graph where
  addresses : List AddressNode
  entities : List EntityNode
  sent : List SentEdge
  owned_by : List (String × String)
deriving DecidableEq, Repr

def Graph.empty : Graph := ⟨[], [], [], []⟩

/-- A normalized transaction record, the `tx_data` dict consumed by
`load_transaction` (field names as in the source). -/
structure TxRecord where
  source_address : String
  destination_address : String
  transaction_hash : String
  value_usd : ℚ
  blockchain_type : String
  block_timestamp : Int
deriving DecidableEq, Repr

/-- `MERGE (a:Address {hash: h}) ON CREATE SET a.first_seen = t
ON MATCH SET a.last_seen = t` — the address upsert step of
`load_transaction`. Cypher MERGE matches on the node pattern (here: the
hash key); on a match it runs only the `ON MATCH` clause, on a miss it
creates the node and runs only `ON CREATE`. -/
def mergeAddr (as : List AddressNode) (h : String) (t : Int) : List AddressNode :=
  if as.any (fun a => a.hash == h) then
    as.map (fun a => if a.hash == h then { a with last_seen := some t } else a)
  else
    as ++ [{ hash := h, first_seen := some t, last_seen := none,
             risk_score := none, label := none }]

/-- The SENT edge a fresh MERGE creates for record `r` (`ON CREATE SET
s.amount_usd, s.timestamp, s.blockchain`). -/
def mkSentEdge (r : TxRecord) : SentEdge :=
  ⟨r.source_address, r.destination_address, r.transaction_hash,
   r.value_usd, r.block_timestamp, r.blockchain_type⟩

/-- `MERGE (source)-[s:SENT {tx_hash}]->(dest) ON CREATE SET ...` — the
edge upsert step of `load_transaction`. MERGE matches an existing SENT
edge between the two endpoint nodes carrying this `tx_hash`; there is no
`ON MATCH` clause on the edge, so a matched edge is left unchanged. -/
def mergeSent (es : List SentEdge) (r : TxRecord) : List SentEdge :=
  if es.any (fun e => e.src == r.source_address &&
      e.dst == r.destination_address && e.tx_hash == r.transaction_hash) then
    es
  else
    es ++ [mkSentEdge r]

/-- `CRAProtocolCore.load_transaction`: merges both endpoint addresses
(observedAt = the record's timestamp) and then the SENT edge, in one
write. The Python method returns `True` whenever the write does not raise
and `False` on any exception raised inside its try block; note that the
timestamp-conversion line `tx_data_copy['block_timestamp']` runs BEFORE
the try, so a record missing that key raises KeyError to the caller —
this model's total record type always carries the field, and the model is
the non-raising path, so the returned Bool is the Python return value on
a healthy store. The source applies no validation of any kind to the
record (no amount-sign check, no field checks) before running the
query. -/
def loadTransaction (r : TxRecord) (g : Graph) : Bool × Graph :=
  (true,
   { g with
     addresses := mergeAddr (mergeAddr g.addresses r.source_address r.block_timestamp)
                    r.destination_address r.block_timestamp,
     sent := mergeSent g.sent r })

/-- Node lookup by hash (first match, mirroring the store's one-node-per-
hash invariant). -/
def lookupAddr (as : List AddressNode) (h : String) : Option AddressNode :=
  as.find? (fun a => a.hash == h)

/-- All SENT edges carrying a given transaction hash. -/
def edgesWithTx (g : Graph) (tx : String) : List SentEdge :=
  g.sent.filter (fun e => e.tx_hash == tx)

lemma mergeSent_of_absent (es : List SentEdge) (r : TxRecord)
    (h : es.filter (fun e => e.tx_hash == r.transaction_hash) = []) :
    mergeSent es r = es ++ [mkSentEdge r] := by
  have hc : ¬ (es.any (fun e => e.src == r.source_address &&
      e.dst == r.destination_address && e.tx_hash == r.transaction_hash) = true) := by
    intro hany
    rw [List.any_eq_true] at hany
    obtain ⟨e, he, hpe⟩ := hany
    simp only [Bool.and_eq_true, beq_iff_eq] at hpe
    have hmem : e ∈ es.filter (fun e => e.tx_hash == r.transaction_hash) := by
      rw [List.mem_filter]
      refine ⟨he, ?_⟩
      simp [hpe.2]
    rw [h] at hmem
    simp at hmem
  simp only [mergeSent]
  rw [if_neg hc]

lemma mergeSent_mkSentEdge_append (es : List SentEdge) (r : TxRecord) :
    mergeSent (es ++ [mkSentEdge r]) r = es ++ [mkSentEdge r] := by
  simp only [mergeSent]
  rw [if_pos]
  rw [List.any_eq_true]
  refine ⟨mkSentEdge r, List.mem_append_right _ (by simp), by simp [mkSentEdge]⟩

/-- C1 (amended): ingesting the same record twice starting from a graph
with no SENT edge carrying its transaction hash leaves exactly one SENT
edge with that hash, whose amount_usd, timestamp and blockchain are the
record's (set at creation, untouched by the second MERGE); the second
ingestion leaves the edge list unchanged; and BOTH calls return true —
the Python return value reports write success, not whether the edge was
newly created. -/
theorem load_transaction_idempotent (r : TxRecord) (g : Graph)
    (h : edgesWithTx g r.transaction_hash = []) :
    (loadTransaction r g).1 = true ∧
    (loadTransaction r (loadTransaction r g).2).1 = true ∧
    edgesWithTx (loadTransaction r (loadTransaction r g).2).2 r.transaction_hash
      = [mkSentEdge r] ∧
    (loadTransaction r (loadTransaction r g).2).2.sent = (loadTransaction r g).2.sent := by
  have h1 : (loadTransaction r g).2.sent = g.sent ++ [mkSentEdge r] := by
    simp only [loadTransaction]
    exact mergeSent_of_absent g.sent r h
  have h2 : (loadTransaction r (loadTransaction r g).2).2.sent = g.sent ++ [mkSentEdge r] := by
    simp only [loadTransaction] at h1 ⊢
    rw [h1]
    exact mergeSent_mkSentEdge_append g.sent r
  refine ⟨rfl, rfl, ?_, by rw [h1, h2]⟩
  simp only [edgesWithTx] at h ⊢
  simp only [loadTransaction] at h2 ⊢
  rw [h2, List.filter_append, h]
  simp [mkSentEdge]

/-- The deposit record from the repository's demo data (`Tx_MIX_Deposit_A`),
with its timestamp taken as epoch 0. -/
def demoRecord : TxRecord :=
  { source_address := "0xIllicitSource_A"
    destination_address := "0xMixerService_Address_1"
    transaction_hash := "Tx_MIX_Deposit_A"
    value_usd := 1000
    blockchain_type := "ETH"
    block_timestamp := 0 }

/-- C1 counterexample: re-ingesting the demo deposit record, the second
`load_transaction` call returns true, not false — the Python method
returns True whenever the MERGE write succeeds, duplicate or not. -/
theorem load_transaction_second_returns_true :
    (loadTransaction demoRecord (loadTransaction demoRecord Graph.empty).2).1 ≠ false ∧
    (loadTransaction demoRecord (loadTransaction demoRecord Graph.empty).2).1 = true := by
  decide

/-- C4 (amended): `load_transaction` applies no validation at all — every
record, including one with non-positive `value_usd`, is written and the
call returns true, with the matching SENT edge present afterwards. -/
theorem load_transaction_no_validation (r : TxRecord) (g : Graph) :
    (loadTransaction r g).1 = true ∧
    ((loadTransaction r g).2.sent.any (fun e => e.src == r.source_address &&
        e.dst == r.destination_address && e.tx_hash == r.transaction_hash)) = true := by
  refine ⟨rfl, ?_⟩
  simp only [loadTransaction]
  unfold mergeSent
  split
  · next hcond => exact hcond
  · rw [List.any_eq_true]
    exact ⟨mkSentEdge r, List.mem_append_right _ (by simp), by simp [mkSentEdge]⟩

/-- A malformed record: non-positive amount. -/
def badRecord : TxRecord := ⟨"0xA", "0xB", "TxNeg", -5, "ETH", 0⟩

/-- C4 counterexample: a record with amount −5 is ingested without any
error: the call returns true and the SENT edge with the negative amount is
created (the graph changes), where the claim requires an `InvalidRecord`
failure with no change to the graph. -/
theorem load_transaction_accepts_nonpositive_amount :
    badRecord.value_usd ≤ 0 ∧
    (loadTransaction badRecord Graph.empty).1 = true ∧
    (loadTransaction badRecord Graph.empty).2.sent = [mkSentEdge badRecord] ∧
    (loadTransaction badRecord Graph.empty).2 ≠ Graph.empty := by
  decide

lemma find?_map_touch_ne (as : List AddressNode) (h x : String) (t : Int) (hx : x ≠ h) :
    (as.map (fun a => if a.hash == h then { a with last_seen := some t } else a)).find?
        (fun a => a.hash == x) = as.find? (fun a => a.hash == x) := by
  induction as with
  | nil => rfl
  | cons a as ih =>
    simp only [List.map_cons]
    by_cases hax : a.hash = x
    · have hah : ¬ (a.hash = h) := by
        rw [hax]
        exact hx
      have hfa : (if a.hash == h then ({ a with last_seen := some t } : AddressNode) else a) = a := by
        simp [hah]
      rw [hfa, List.find?_cons_of_pos _ (by simp [hax]), List.find?_cons_of_pos _ (by simp [hax])]
    · have hpres : ((if a.hash == h then ({ a with last_seen := some t } : AddressNode) else a)).hash
          = a.hash := by
        split <;> rfl
      rw [List.find?_cons_of_neg _ (by simp only [hpres]; simp [hax]),
        List.find?_cons_of_neg _ (by simp [hax])]
      exact ih

lemma find?_map_touch_self (as : List AddressNode) (h : String) (t : Int) (A : AddressNode)
    (hf : as.find? (fun a => a.hash == h) = some A) :
    (as.map (fun a => if a.hash == h then { a with last_seen := some t } else a)).find?
        (fun a => a.hash == h) = some { A with last_seen := some t } := by
  induction as with
  | nil => simp at hf
  | cons a as ih =>
    simp only [List.map_cons]
    by_cases hah : a.hash = h
    · rw [List.find?_cons_of_pos _ (by simp [hah])] at hf
      have hA : a = A := by
        injection hf
      subst hA
      rw [List.find?_cons_of_pos _ (by simp [hah])]
      simp [hah]
    · rw [List.find?_cons_of_neg _ (by simp [hah])] at hf
      have hfa : (if a.hash == h then ({ a with last_seen := some t } : AddressNode) else a) = a := by
        simp [hah]
      rw [hfa, List.find?_cons_of_neg _ (by simp [hah])]
      exact ih hf

lemma lookupAddr_mergeAddr_ne (as : List AddressNode) (h : String) (t : Int) (x : String)
    (hx : x ≠ h) :
    lookupAddr (mergeAddr as h t) x = lookupAddr as x := by
  unfold lookupAddr mergeAddr
  split
  · exact find?_map_touch_ne as h x t hx
  · rw [List.find?_append]
    have hnw : (([(⟨h, some t, none, none, none⟩ : AddressNode)] : List AddressNode).find?
          (fun a => a.hash == x)) = none := by
      simp [Ne.symm hx]
    rw [hnw]
    cases as.find? (fun a => a.hash == x) <;> rfl

lemma lookupAddr_mergeAddr_self_new (as : List AddressNode) (h : String) (t : Int)
    (hnew : lookupAddr as h = none) :
    lookupAddr (mergeAddr as h t) h =
      some ⟨h, some t, none, none, none⟩ := by
  unfold lookupAddr at hnew
  have hany : ¬ (as.any (fun a => a.hash == h) = true) := by
    intro hc
    rw [List.any_eq_true] at hc
    obtain ⟨a, ha, hp⟩ := hc
    exact (List.find?_eq_none.mp hnew a ha) hp
  unfold lookupAddr mergeAddr
  rw [if_neg hany, List.find?_append, hnew]
  simp

lemma lookupAddr_mergeAddr_self_match (as : List AddressNode) (h : String) (t : Int)
    (A : AddressNode) (hf : lookupAddr as h = some A) :
    lookupAddr (mergeAddr as h t) h = some { A with last_seen := some t } := by
  unfold lookupAddr at hf
  have hany : as.any (fun a => a.hash == h) = true := by
    rw [List.any_eq_true]
    have hp := List.find?_some hf
    exact ⟨A, List.mem_of_find?_eq_some hf, hp⟩
  unfold lookupAddr mergeAddr
  rw [if_pos hany]
  exact find?_map_touch_self as h t A hf

/-- C3 (amended): for an address `a` not yet in the graph that is the
source of two ingested transfers, whichever record is ingested FIRST
determines `first_seen` (set by `ON CREATE`) and the record ingested
second determines `last_seen` (overwritten by `ON MATCH`) — the code
applies no min/max, so the stored values reflect ingestion order, not
timestamp order. In-order ingestion (r1.timestamp < r2.timestamp) gives
the claimed first_seen = t1, last_seen = t2; reversed ingestion gives
first_seen = t2, last_seen = t1. -/
theorem first_seen_last_seen_ingestion_order (r1 r2 : TxRecord) (g : Graph) (a : String)
    (hs1 : r1.source_address = a) (hs2 : r2.source_address = a)
    (hd1 : r1.destination_address ≠ a) (hd2 : r2.destination_address ≠ a)
    (hnew : lookupAddr g.addresses a = none) :
    lookupAddr ((loadTransaction r2 (loadTransaction r1 g).2).2).addresses a =
      some ⟨a, some r1.block_timestamp, some r2.block_timestamp, none, none⟩ := by
  simp only [loadTransaction]
  rw [hs1, hs2]
  rw [lookupAddr_mergeAddr_ne _ _ _ _ (Ne.symm hd2)]
  have e1 : lookupAddr (mergeAddr g.addresses a r1.block_timestamp) a =
      some ⟨a, some r1.block_timestamp, none, none, none⟩ :=
    lookupAddr_mergeAddr_self_new g.addresses a r1.block_timestamp hnew
  have e2 : lookupAddr (mergeAddr (mergeAddr g.addresses a r1.block_timestamp)
      r1.destination_address r1.block_timestamp) a =
      some ⟨a, some r1.block_timestamp, none, none, none⟩ := by
    rw [lookupAddr_mergeAddr_ne _ _ _ _ (Ne.symm hd1)]
    exact e1
  rw [lookupAddr_mergeAddr_self_match _ _ _ _ e2]

/-- The later transfer (timestamp 200 s), touching address `0xA`. -/
def txLate : TxRecord := ⟨"0xA", "0xB", "Tx2", 1000, "ETH", 200000⟩

/-- The earlier transfer (timestamp 100 s), touching address `0xA`. -/
def txEarly : TxRecord := ⟨"0xA", "0xC", "Tx1", 800, "ETH", 100000⟩

/-- C3 counterexample: ingesting the t2 = 200 s transfer before the
t1 = 100 s transfer leaves `0xA` with first_seen = t2 and last_seen = t1 —
not the claimed min/max. -/
theorem first_seen_out_of_order_counterexample :
    lookupAddr ((loadTransaction txEarly (loadTransaction txLate Graph.empty).2).2).addresses
        "0xA" = some ⟨"0xA", some 200000, some 100000, none, none⟩ ∧
    ¬ (lookupAddr ((loadTransaction txEarly (loadTransaction txLate Graph.empty).2).2).addresses
        "0xA" = some ⟨"0xA", some 100000, some 200000, none, none⟩) := by
  decide

/-- Python `round` to an integer: round half to even on the exact value. -/
def roundHalfEven (q : ℚ) : ℤ :=
  let f : ℤ := q.floor
  let r : ℚ := q - (f : ℚ)
  if r < 1 / 2 then f
  else if 1 / 2 < r then f + 1
  else if f % 2 = 0 then f else f + 1

/-- Python `round(x, 2)`. -/
def round2 (q : ℚ) : ℚ := ((roundHalfEven (q * 100) : ℚ)) / 100

/-- Neo4j `duration.between(t1, t2).minutes`: the elapsed time expressed in
WHOLE minutes, truncated toward zero (the `minutes` accessor reports the
total minutes of the duration's seconds-based component group, and integer
division in the store truncates toward zero; `Int.div` is Lean's
truncating division). Exact whenever the two instants are less than one
calendar day apart — beyond that Neo4j moves whole days into the duration's
`days` group, which the `minutes` accessor does not include; the claims in
scope only exercise sub-day separations. -/
def minutesBetween (t1 t2 : Int) : Int := Int.div (t2 - t1) 60000

/-- Amount heuristic of `analyze_mixer_flow`:
`abs(dep.amount_usd - wdr.amount_usd) <= 0.05 * dep.amount_usd`.
Computed in exact integer arithmetic on numerators/denominators (the
rational inequality cross-multiplied by the positive factor
`20 * dep.den * wdr.den`); `mixerAmountOK_iff` proves this equal to the
source's rational-arithmetic form, which is the shape all theorems use. -/
def mixerAmountOK (d w : SentEdge) : Bool :=
  decide (20 * ((d.amount_usd.num * (w.amount_usd.den : Int) -
      w.amount_usd.num * (d.amount_usd.den : Int)).natAbs : Int) ≤
    d.amount_usd.num * (w.amount_usd.den : Int))

/-- The integer-arithmetic `mixerAmountOK` decides exactly the source
predicate `abs(dep.amount_usd - wdr.amount_usd) <= 0.05 * dep.amount_usd`. -/
lemma mixerAmountOK_iff (d w : SentEdge) :
    mixerAmountOK d w = true ↔
      |d.amount_usd - w.amount_usd| ≤ (5 / 100) * d.amount_usd := by
  unfold mixerAmountOK
  rw [decide_eq_true_iff]
  have hM : (0 : ℚ) < 20 * ((d.amount_usd.den : ℚ) * (w.amount_usd.den : ℚ)) := by
    have had : (0 : ℚ) < (d.amount_usd.den : ℚ) := by
      exact_mod_cast d.amount_usd.den_pos
    have hbd : (0 : ℚ) < (w.amount_usd.den : ℚ) := by
      exact_mod_cast w.amount_usd.den_pos
    positivity
  rw [← mul_le_mul_right hM]
  have e1 : |d.amount_usd - w.amount_usd| *
      (20 * ((d.amount_usd.den : ℚ) * (w.amount_usd.den : ℚ))) =
      ((20 * ((d.amount_usd.num * (w.amount_usd.den : Int) -
        w.amount_usd.num * (d.amount_usd.den : Int)).natAbs : Int) : Int) : ℚ) := by
    rw [← abs_of_pos hM, ← abs_mul]
    have hprod : (d.amount_usd - w.amount_usd) *
        (20 * ((d.amount_usd.den : ℚ) * (w.amount_usd.den : ℚ))) =
        ((20 * (d.amount_usd.num * (w.amount_usd.den : Int) -
          w.amount_usd.num * (d.amount_usd.den : Int)) : Int) : ℚ) := by
      push_cast
      calc (d.amount_usd - w.amount_usd) *
          (20 * ((d.amount_usd.den : ℚ) * (w.amount_usd.den : ℚ)))
          = 20 * ((d.amount_usd * (d.amount_usd.den : ℚ)) * (w.amount_usd.den : ℚ)) -
            20 * ((w.amount_usd * (w.amount_usd.den : ℚ)) * (d.amount_usd.den : ℚ)) := by
            ring
        _ = 20 * ((d.amount_usd.num : ℚ) * (w.amount_usd.den : ℚ)) -
            20 * ((w.amount_usd.num : ℚ) * (d.amount_usd.den : ℚ)) := by
            rw [Rat.mul_den_eq_num, Rat.mul_den_eq_num]
        _ = 20 * ((d.amount_usd.num : ℚ) * (w.amount_usd.den : ℚ) -
            (w.amount_usd.num : ℚ) * (d.amount_usd.den : ℚ)) := by
            ring
    rw [hprod, ← Int.cast_abs]
    congr 1
    rw [abs_mul, Int.abs_eq_natAbs (d.amount_usd.num * (w.amount_usd.den : Int) -
      w.amount_usd.num * (d.amount_usd.den : Int))]
    norm_num
  have e2 : (5 / 100 : ℚ) * d.amount_usd *
      (20 * ((d.amount_usd.den : ℚ) * (w.amount_usd.den : ℚ))) =
      ((d.amount_usd.num * (w.amount_usd.den : Int) : Int) : ℚ) := by
    push_cast
    calc (5 / 100 : ℚ) * d.amount_usd *
        (20 * ((d.amount_usd.den : ℚ) * (w.amount_usd.den : ℚ)))
        = (5 / 100 * 20 : ℚ) * ((d.amount_usd * (d.amount_usd.den : ℚ)) *
          (w.amount_usd.den : ℚ)) := by ring
      _ = (5 / 100 * 20 : ℚ) * ((d.amount_usd.num : ℚ) * (w.amount_usd.den : ℚ)) := by
          rw [Rat.mul_den_eq_num]
      _ = (d.amount_usd.num : ℚ) * (w.amount_usd.den : ℚ) := by
          norm_num
  rw [e1, e2, Int.cast_le]

/-- Temporal heuristic of `analyze_mixer_flow`:
`duration.between(dep.timestamp, wdr.timestamp).minutes >= 0` and `<= 30`. -/
def mixerTemporalOK (d w : SentEdge) : Bool :=
  decide (0 ≤ minutesBetween d.timestamp w.timestamp) &&
  decide (minutesBetween d.timestamp w.timestamp ≤ 30)

/-- Both correlation heuristics of `analyze_mixer_flow`. -/
def mixerPairOK (d w : SentEdge) : Bool := mixerAmountOK d w && mixerTemporalOK d w

/-- The Cypher pattern `(a)-[:OWNED_BY]->(:Entity {name: n})`: an OWNED_BY
edge from the address to an existing Entity node with that name. -/
def ownedByEntity (g : Graph) (addr ename : String) : Bool :=
  g.owned_by.any (fun p => p.1 == addr && p.2 == ename) &&
  g.entities.any (fun e => e.name == ename)

/-- Deposit edges: `MATCH (source:Address)-[dep:SENT]->(mixer_in) WHERE
source.hash = $start_address AND (mixer_in)-[:OWNED_BY]->(:Entity {name:
$mixer_name})`. -/
def mixerDeposits (g : Graph) (start_address mixer_name : String) : List SentEdge :=
  g.sent.filter (fun e => e.src == start_address && ownedByEntity g e.dst mixer_name)

/-- Withdrawal edges: `MATCH (mixer_out)-[wdr:SENT]->(destination:Address)
WHERE (mixer_out)-[:OWNED_BY]->(:Entity {name: $mixer_name})`. -/
def mixerWithdrawals (g : Graph) (mixer_name : String) : List SentEdge :=
  g.sent.filter (fun e => ownedByEntity g e.src mixer_name)

/-- All (deposit, withdrawal) pairs passing both correlation heuristics —
the Cartesian match of the query before ORDER BY / LIMIT. -/
def acceptedPairs (g : Graph) (start_address mixer_name : String) :
    List (SentEdge × SentEdge) :=
  (mixerDeposits g start_address mixer_name).bind (fun d =>
    ((mixerWithdrawals g mixer_name).filter (fun w => mixerPairOK d w)).map (fun w => (d, w)))

/-- `ORDER BY DepositTime`: comparison of pairs by deposit timestamp. -/
def depLE (p q : SentEdge × SentEdge) : Prop := p.1.timestamp ≤ q.1.timestamp

instance : DecidableRel depLE := fun p q => inferInstanceAs (Decidable (_ ≤ _))

instance : IsTotal (SentEdge × SentEdge) depLE :=
  ⟨fun p q => le_total p.1.timestamp q.1.timestamp⟩

instance : IsTrans (SentEdge × SentEdge) depLE :=
  ⟨fun _ _ _ hab hbc => le_trans hab hbc⟩

/-- The rows the Cypher query of `analyze_mixer_flow` returns: accepted
pairs, `ORDER BY DepositTime`, `LIMIT 10`. -/
def runMixerQuery (g : Graph) (start_address mixer_name : String) :
    List (SentEdge × SentEdge) :=
  (List.insertionSort depLE (acceptedPairs g start_address mixer_name)).take 10

/-- One entry of the correlations list that the result loop at source
lines 183-195 is written to build. No value of this shape is ever
constructed at runtime: the loop's first iteration already raises (see
`durationTotalSecondsError`), so the only correlations list the method
ever returns is the empty one of the "No Correlation Found" dict. -/
structure Correlation where
  deposit_source : String
  deposit_amount_usd : ℚ
  withdrawal_amount_usd : ℚ
  withdrawal_target : String
  time_difference_minutes : ℚ
deriving DecidableEq, Repr

/-- The dict `analyze_mixer_flow` returns; keys absent from a given return
path are `none`. -/
structure MixerResponse where
  status : String
  mixer : Option String
  count : Option Nat
  correlations : Option (List Correlation)
  message : Option String
deriving DecidableEq, Repr

/-- The message of the exception raised by the first iteration of the
result loop in `analyze_mixer_flow`: the driver hydrates the Cypher
`datetime()` properties as `neo4j.time.DateTime` values, whose difference
`record["WithdrawalTime"] - record["DepositTime"]` is a
`neo4j.time.Duration` — a months/days/seconds/nanoseconds value that,
unlike `datetime.timedelta`, has NO `total_seconds` method — so
`time_diff.total_seconds()` raises AttributeError on the very first row
(the text is abstracted here without Python quoting marks). -/
def durationTotalSecondsError : String :=
  "AttributeError: Duration object has no attribute total_seconds"

/-- `CRAProtocolCore.analyze_mixer_flow`: the whole body runs inside
`try/except Exception`, so no exception escapes to the caller. A raising
store query yields the `{"status": "ERROR", "message": str(e)}` dict. An
empty row list returns the "No Correlation Found" dict. A NON-EMPTY row
list enters the result loop, whose first iteration raises at
`time_diff.total_seconds()` (see `durationTotalSecondsError`); the
`except` catches that too and returns the ERROR dict — the
"CORRELATION DETECTED" construction at source lines 197-202 is
unreachable. -/
def analyzeMixerFlow (mixer_name : String)
    (query : Except String (List (SentEdge × SentEdge))) : MixerResponse :=
  match query with
  | .error e => ⟨"ERROR", none, none, none, some e⟩
  | .ok [] => ⟨"No Correlation Found", none, none, some [], none⟩
  | .ok (_ :: _) => ⟨"ERROR", none, none, none, some durationTotalSecondsError⟩

/-- The demo deposit: 1000 USD from `A` into mixer address `M1` at t = 0. -/
def depA : SentEdge := ⟨"A", "M1", "TD", 1000, 0, "ETH"⟩

/-- A withdrawal from mixer address `M2` to `X`, with the given amount and
timestamp (milliseconds). -/
def wdrAt (amt : ℚ) (t : Int) : SentEdge := ⟨"M2", "X", "TW", amt, t, "ETH"⟩

/-- A two-edge mixer scenario: entity `M` owns mixer addresses `M1` (in)
and `M2` (out), one deposit and one withdrawal. -/
def mixGraph (dep wdr : SentEdge) : Graph :=
  ⟨[], [⟨"M", "Mixer"⟩], [dep, wdr], [("M1", "M"), ("M2", "M")]⟩

/-- C2: the temporal filter of `analyze_mixer_flow` compares the elapsed
time TRUNCATED to whole minutes with the interval [0, 30], so its
effective window is the open interval (−60 s, 31 min), not the closed
[0 min, 30 min]: a withdrawal at +30 minutes exactly is included (as the
claim states), but one at +30.01 minutes (1800.6 s) is ALSO included, and
so is one 30 seconds BEFORE the deposit; +31 min and −60 s are the first
excluded points. The +30.01-minute pair passes both heuristics and is
returned as a row of the (valid) correlation query. -/
theorem mixer_temporal_minutes_truncation :
    mixerTemporalOK depA (wdrAt 1000 1800000) = true ∧
    mixerTemporalOK depA (wdrAt 1000 1800600) = true ∧
    mixerTemporalOK depA (wdrAt 1000 (-30000)) = true ∧
    mixerTemporalOK depA (wdrAt 1000 1860000) = false ∧
    mixerTemporalOK depA (wdrAt 1000 (-60000)) = false ∧
    (depA, wdrAt 1000 1800600) ∈
      acceptedPairs (mixGraph depA (wdrAt 1000 1800600)) "A" "M" ∧
    (depA, wdrAt 1000 1800600) ∈
      runMixerQuery (mixGraph depA (wdrAt 1000 1800600)) "A" "M" := by
  decide

/-- C6: every pair accepted by the correlation query of
`analyze_mixer_flow` satisfies `|deposit.amount − withdrawal.amount| ≤
0.05 · deposit.amount` (the tolerance is a fraction of the deposit amount
only); at deposit 1000 a 950 withdrawal (difference exactly 50) passes —
the pair is a returned query row — and a 949 withdrawal (difference 51)
fails: the query returns no row and the method reports "No Correlation
Found". -/
theorem mixer_amount_tolerance :
    (∀ (g : Graph) (s m : String) (d w : SentEdge), (d, w) ∈ acceptedPairs g s m →
        |d.amount_usd - w.amount_usd| ≤ (5 / 100) * d.amount_usd) ∧
    mixerAmountOK depA (wdrAt 950 300000) = true ∧
    mixerAmountOK depA (wdrAt 949 300000) = false ∧
    (depA, wdrAt 950 300000) ∈
      runMixerQuery (mixGraph depA (wdrAt 950 300000)) "A" "M" ∧
    runMixerQuery (mixGraph depA (wdrAt 949 300000)) "A" "M" = [] ∧
    (analyzeMixerFlow "M"
        (.ok (runMixerQuery (mixGraph depA (wdrAt 949 300000)) "A" "M"))).status
      = "No Correlation Found" := by
  constructor
  · intro g s m d w hmem
    unfold acceptedPairs at hmem
    rw [List.mem_bind] at hmem
    obtain ⟨d', hd', hmem2⟩ := hmem
    rw [List.mem_map] at hmem2
    obtain ⟨w', hw', heq⟩ := hmem2
    rw [List.mem_filter] at hw'
    have hok : mixerPairOK d' w' = true := hw'.2
    injection heq with hdd hww
    subst hdd
    subst hww
    unfold mixerPairOK at hok
    rw [Bool.and_eq_true] at hok
    have hamt := hok.1
    exact (mixerAmountOK_iff _ _).mp hamt
  · decide

/-- Witness for `mixer_amount_tolerance`: the accepted demo pair
(deposit 1000, withdrawal 950 at +5 min) satisfies the tolerance bound. -/
theorem mixer_amount_tolerance_witness :
    |depA.amount_usd - (wdrAt 950 300000).amount_usd| ≤ (5 / 100) * depA.amount_usd :=
  (mixer_amount_tolerance).1 (mixGraph depA (wdrAt 950 300000)) "A" "M"
    depA (wdrAt 950 300000) (by decide)

/-- The i-th of 15 qualifying deposits: 1000 USD from `A` to `M1` at
t = i minutes. -/
def capDeposit (i : Nat) : SentEdge :=
  ⟨"A", "M1", "D" ++ toString i, 1000, (i : Int) * 60000, "ETH"⟩

/-- A scenario with 15 qualifying (deposit, withdrawal) pairs: 15 deposits
at t = 0..14 min and one 1000 USD withdrawal at t = 14 min. -/
def capGraph : Graph :=
  ⟨[], [⟨"M", "Mixer"⟩],
   ((List.range 15).map capDeposit) ++ [⟨"M2", "X", "W", 1000, 840000, "ETH"⟩],
   [("M1", "M"), ("M2", "M")]⟩

/-- C7 (code bug): the (valid) query result is `ORDER BY DepositTime
LIMIT 10` — at most 10 rows, sorted by deposit timestamp ascending, and
exactly the first 10 of the accepted pairs sorted by deposit timestamp;
with 15 qualifying pairs the query returns exactly the 10 earliest
deposits (t = 0..9 min) — but the method then crashes in its result loop
on those rows and returns the ERROR dict instead of the claimed 10-entry
correlations list. -/
theorem mixer_result_cap_and_order :
    (∀ (g : Graph) (s m : String),
      (runMixerQuery g s m).length ≤ 10 ∧
      List.Sorted depLE (runMixerQuery g s m) ∧
      runMixerQuery g s m = (List.insertionSort depLE (acceptedPairs g s m)).take 10) ∧
    (acceptedPairs capGraph "A" "M").length = 15 ∧
    (runMixerQuery capGraph "A" "M").length = 10 ∧
    (runMixerQuery capGraph "A" "M").map (fun p => p.1.timestamp) =
      [0, 60000, 120000, 180000, 240000, 300000, 360000, 420000, 480000, 540000] ∧
    analyzeMixerFlow "M" (.ok (runMixerQuery capGraph "A" "M")) =
      ⟨"ERROR", none, none, none, some durationTotalSecondsError⟩ := by
  refine ⟨fun g s m => ⟨?_, ?_, rfl⟩, by decide⟩
  · simp only [runMixerQuery]
    simpa using List.length_take_le 10 _
  · exact List.Pairwise.sublist (List.take_sublist _ _)
      (List.sorted_insertionSort depLE (acceptedPairs g s m))

/-- C10 counterexample: a SUCCESSFUL, non-empty store query — here the
seeded demo scenario pair (deposit 1000 at t = 0, withdrawal 990 at
+5 min) — does not produce the claimed "CORRELATION DETECTED" record with
a count: the result loop raises AttributeError internally and the method
returns the ERROR dict, with no count and no correlations key. -/
theorem analyze_mixer_flow_detected_unreachable :
    (analyzeMixerFlow "M" (.ok [(depA, wdrAt 990 300000)])).status = "ERROR" ∧
    (analyzeMixerFlow "M" (.ok [(depA, wdrAt 990 300000)])).status
      ≠ "CORRELATION DETECTED" ∧
    (analyzeMixerFlow "M" (.ok [(depA, wdrAt 990 300000)])).count = none ∧
    (analyzeMixerFlow "M" (.ok [(depA, wdrAt 990 300000)])).correlations = none := by
  decide

/-- C10 (amended): `analyze_mixer_flow` never propagates an exception,
and its status is always "ERROR" or "No Correlation Found": a raising
store query returns the ERROR dict carrying the store's message; a
successful EMPTY query returns the "No Correlation Found" dict with an
empty correlations list; and a successful NON-EMPTY query ALSO returns an
ERROR dict — the result loop raises at `time_diff.total_seconds()` and
the blanket `except` converts it — so the "CORRELATION DETECTED" record
(with its count field) is never returned. -/
theorem analyze_mixer_flow_shapes (m e : String)
    (p : SentEdge × SentEdge) (rest : List (SentEdge × SentEdge)) :
    analyzeMixerFlow m (.error e) = ⟨"ERROR", none, none, none, some e⟩ ∧
    analyzeMixerFlow m (.ok []) =
      ⟨"No Correlation Found", none, none, some [], none⟩ ∧
    analyzeMixerFlow m (.ok (p :: rest)) =
      ⟨"ERROR", none, none, none, some durationTotalSecondsError⟩ ∧
    (∀ q : Except String (List (SentEdge × SentEdge)),
      (analyzeMixerFlow m q).status = "ERROR" ∨
      (analyzeMixerFlow m q).status = "No Correlation Found") := by
  refine ⟨rfl, rfl, rfl, fun q => ?_⟩
  cases q with
  | error e₁ => exact Or.inl rfl
  | ok rows =>
    cases rows with
    | nil => exact Or.inr rfl
    | cons a as => exact Or.inl rfl

/-- A projected node of the peel-chain result — the record shape the
query text projects (`id`, `label`, `group`, `risk_score`, `entity_type`,
`first_seen`). No value of this shape is ever produced at runtime: see
`peelChainQueryOutcome`. -/
structure PCNode where
  id : String
  label : String
  group : String
  risk_score : ℚ
  entity_type : Option String
  first_seen : Option String
deriving DecidableEq, Repr

/-- A projected edge of the peel-chain result (same caveat as `PCNode`). -/
structure PCEdge where
  id : String
  «from» : String
  «to» : String
  label : String
  amount_usd : ℚ
  is_peel_chain : Bool
deriving DecidableEq, Repr

/-- The edge projection map written in the peel-chain query text:
`{id: rel.tx_hash, from: startNode(rel).hash, to: endNode(rel).hash,
label: "$" + toString(rel.amount_usd), amount_usd: rel.amount_usd,
is_peel_chain: (rel.amount_usd > 900)}`. The statement never executes
(see `peelChainQueryOutcome`), so this map is applied to no edge at
runtime; it is embedded to state what the text's `> 900` flag does. -/
def projEdge (e : SentEdge) : PCEdge :=
  ⟨e.tx_hash, e.src, e.dst, "$" ++ toString e.amount_usd, e.amount_usd,
   decide (900 < e.amount_usd)⟩

/-- The path filter written in the peel-chain query text:
`WHERE ALL(rel IN s WHERE rel.amount_usd > 500)`; like the projection, it
is never executed. -/
def peelPathFilter (p : List SentEdge) : Bool :=
  p.all (fun e => decide (500 < e.amount_usd))

/-- The summary dict of `trace_and_format_graph`. -/
structure TraceSummary where
  conclusion : String
  risk_level : String
  total_value_usd : ℚ
deriving DecidableEq, Repr

/-- The success return value of `trace_and_format_graph`. -/
structure TraceResult where
  nodes : List PCNode
  edges : List PCEdge
  summary : TraceSummary
deriving DecidableEq, Repr

/-- The store's rejection of the peel-chain statement. The Cypher text in
`trace_and_format_graph` is statically invalid, in two independent ways:
`WITH DISTINCT node_list AS node, DISTINCT rel_list AS rel` repeats the
reserved word DISTINCT inside the projection list (a parse error —
DISTINCT may appear once, directly after WITH), and `node_list` /
`rel_list` are bound by UNWIND to whole LISTS (the elements of
`collect(nodes(path))` / `collect(relationships(path))`), so their later
use in node position (`OPTIONAL MATCH (node)-[:OWNED_BY]->(e:Entity)`)
and relationship position (`rel.tx_hash`, `startNode(rel)`) is a
compile-time type error. The store rejects the statement before
evaluating it against any data. -/
def peelChainQuerySyntaxError : String :=
  "CypherSyntaxError: Invalid input DISTINCT"

/-- The outcome of submitting the peel-chain statement: the same compile
error for every graph and every parameter binding — never any rows. (The
`Option` payload models `.single()`: `none` would be the no-row case,
`some` a row holding the projected node and edge lists; neither ever
occurs.) -/
def peelChainQueryOutcome (_g : Graph) (_start : String) (_maxHops : Nat) :
    Except String (Option (List PCNode × List PCEdge)) :=
  .error peelChainQuerySyntaxError

/-- Source lines 120-133: the result formatting `trace_and_format_graph`
would apply to a query result — dead code, since the query always raises.
A missing row (`none`) or an empty projected node list yields the empty
LOW-risk dict; otherwise the nodes and edges are returned with the
HIGH-risk summary whose `total_value_usd` is
`round(sum(edge['amount_usd'] for edge in result['edges']), 2)`. -/
def formatPeelChainResult (result : Option (List PCNode × List PCEdge)) :
    TraceResult :=
  match result with
  | none => ⟨[], [], ⟨"No Peel Chain path found.", "LOW", 0⟩⟩
  | some (nodes, edges) =>
    if nodes = [] then ⟨[], [], ⟨"No Peel Chain path found.", "LOW", 0⟩⟩
    else ⟨nodes, edges,
      ⟨"Potential Peel Chain pattern detected.", "HIGH",
        round2 ((edges.map (fun e => e.amount_usd)).sum)⟩⟩

/-- `CRAProtocolCore.trace_and_format_graph`: submits the statement and
formats its result. The method has NO try/except, so the store's error
propagates to the caller — and since the statement is statically invalid,
EVERY call raises and the formatting branch is unreachable. -/
def traceAndFormatGraph (g : Graph) (start : String) (maxHops : Nat := 5) :
    Except String TraceResult :=
  match peelChainQueryOutcome g start maxHops with
  | .error e => .error e
  | .ok result => .ok (formatPeelChainResult result)

/-- A single SENT edge from `S` to `B` with the given amount. -/
def peelEdge (amt : ℚ) : SentEdge := ⟨"S", "B", "P1", amt, 0, "ETH"⟩

/-- C5 (code bug): the thresholds as WRITTEN in the query text are strict
— the path filter accepts exactly the paths all of whose edges exceed 500
(an edge of exactly 500 disqualifies its path, 501 passes) and the
projected `is_peel_chain` flag is exactly `amount_usd > 900` (900 maps to
false, 1000 to true) — but `trace_and_format_graph` raises the store's
compile error on every call, so no path is ever tested and no edge is
ever returned. -/
theorem peel_chain_thresholds :
    (∀ (g : Graph) (s : String) (h : Nat),
        traceAndFormatGraph g s h = .error peelChainQuerySyntaxError) ∧
    (∀ p : List SentEdge, peelPathFilter p = true ↔ ∀ e ∈ p, 500 < e.amount_usd) ∧
    peelPathFilter [peelEdge 500] = false ∧
    peelPathFilter [peelEdge 501] = true ∧
    (∀ e : SentEdge, (projEdge e).is_peel_chain = decide (900 < e.amount_usd)) ∧
    (projEdge (peelEdge 900)).is_peel_chain = false ∧
    (projEdge (peelEdge 1000)).is_peel_chain = true := by
  refine ⟨fun g s h => rfl, fun p => ?_, by decide, by decide, fun e => rfl,
    by decide, by decide⟩
  unfold peelPathFilter
  rw [List.all_eq_true]
  constructor
  · intro hall e he
    exact of_decide_eq_true (hall e he)
  · intro hall e he
    exact decide_eq_true (hall e he)

/-- C8 (code bug): the dead formatting code WOULD return, for any
non-empty projected node list, exactly the HIGH-risk summary whose total
is the rounded sum of the returned edges' amounts — but
`trace_and_format_graph` raises on every call and never produces any
summary. -/
theorem peel_chain_summary_total :
    (∀ (g : Graph) (s : String) (h : Nat),
        traceAndFormatGraph g s h = .error peelChainQuerySyntaxError) ∧
    (∀ (n : PCNode) (rest : List PCNode) (edges : List PCEdge),
        formatPeelChainResult (some (n :: rest, edges)) =
          ⟨n :: rest, edges,
            ⟨"Potential Peel Chain pattern detected.", "HIGH",
              round2 ((edges.map (fun e => e.amount_usd)).sum)⟩⟩) := by
  refine ⟨fun g s h => rfl, fun n rest edges => ?_⟩
  simp [formatPeelChainResult]

/-- C9 (code bug): the claim's no-pattern case never returns — every call
of `trace_and_format_graph`, the no-pattern case included, raises the
store's compile error; the empty LOW-risk dict exists only in the dead
formatting code, which would produce it for a missing row or an empty
projected node list. -/
theorem peel_chain_empty_case :
    (∀ (g : Graph) (s : String) (h : Nat),
        traceAndFormatGraph g s h = .error peelChainQuerySyntaxError) ∧
    formatPeelChainResult none =
      ⟨[], [], ⟨"No Peel Chain path found.", "LOW", 0⟩⟩ ∧
    (∀ edges : List PCEdge, formatPeelChainResult (some ([], edges)) =
      ⟨[], [], ⟨"No Peel Chain path found.", "LOW", 0⟩⟩) :=
  ⟨fun g s h => rfl, rfl, fun edges => rfl⟩

/-- Witness for `load_transaction_idempotent`: the demo record ingested
twice into the empty graph leaves exactly its one edge. -/
theorem load_transaction_idempotent_witness :
    edgesWithTx Graph.empty demoRecord.transaction_hash = [] ∧
    edgesWithTx (loadTransaction demoRecord (loadTransaction demoRecord Graph.empty).2).2
      demoRecord.transaction_hash = [mkSentEdge demoRecord] :=
  ⟨by decide, (load_transaction_idempotent demoRecord Graph.empty (by decide)).2.2.1⟩

/-- Witness for `first_seen_last_seen_ingestion_order`: ingesting the
earlier transfer first (timestamp order) gives first_seen = 100 s and
last_seen = 200 s for `0xA`. -/
theorem first_seen_last_seen_ingestion_order_witness :
    lookupAddr ((loadTransaction txLate (loadTransaction txEarly Graph.empty).2).2).addresses
        "0xA" = some ⟨"0xA", some 100000, some 200000, none, none⟩ :=
  first_seen_last_seen_ingestion_order txEarly txLate Graph.empty "0xA"
    rfl rfl (by decide) (by decide) (by decide)
